import Mathlib

/-!
Verification of the orchestrator of the tableQA agent (`tableqa/agent.py`).

The orchestrator (`Agent.get_query`, `Agent.query_db`) wires a question through
the table selector (`Nlp.csv_select`), the query synthesizer
(`Nlp.get_sql_query`), the execution gateway (`Database.fetch_data` /
`Database.fetch_data_aws`) and the presentation layer (`Chart`).  Those
collaborators live in modules outside the orchestrator; here they are modelled
as oracle functions bundled in an `Env` record, so every theorem quantifies
over all possible collaborator behaviours.  Each orchestrator entry point is
embedded as a pure function returning its result together with an ordered
trace of observable side effects (constructions of collaborator state, calls
into collaborators, printed messages, root-logger mutations).
-/

namespace TableQA

/-- Root-logger levels the orchestrator assigns (`logging.INFO` /
`logging.WARNING`). -/
inductive LogLevel where
  | info
  | warning
  deriving DecidableEq, Repr

/-- A resolved target table (a pandas DataFrame in the source; only its
identity matters to the orchestrator, which passes it through opaquely). -/
abbrev Table := String

/-- One result row, as returned by the execution gateway. -/
abbrev Row := List String

/-- A tabular result: a sequence of row tuples. -/
abbrev Rows := List Row

/-- A failure raised by the query synthesizer (`Nlp.get_sql_query`). -/
abbrev SynthErr := String

/-- A failure raised by the execution gateway (`fetch_data` variants). -/
abbrev ExecErr := String

/-- A failure raised while rendering a chart (`Chart(...)`). -/
abbrev ChartErr := String

/-- The agent data source: a path to a folder of input files, or an in-memory
pandas DataFrame (the `isinstance(self.data_dir, pd.DataFrame)` branch). -/
inductive DataDir where
  | path (p : String)
  | dataFrame (df : Table)
  deriving DecidableEq, Repr

/-- The attributes stored by `Agent.__init__`, with the same names and the
same default values as the Python constructor. -/
structure Agent where
  data_dir : DataDir
  schema_dir : Option String := none
  db_type : String := "sqlite"
  username : String := ""
  password : String := ""
  database : String := "db"
  host : String := "localhost"
  port : Option String := none
  drop_db : Bool := true
  aws_db : Bool := false
  aws_s3 : Bool := false
  access_key_id : String := ""
  secret_access_key : String := ""
  deriving DecidableEq, Repr

/-- The connection parameters the orchestrator forwards to the execution
gateway: `fetch_data(question, query, db_type, username, password, database,
host, port, drop_db)`. -/
structure DbParams where
  db_type : String
  username : String
  password : String
  database : String
  host : String
  port : Option String
  drop_db : Bool
  deriving DecidableEq, Repr

/-- The connection parameters taken from the agent state. -/
def Agent.dbParams (st : Agent) : DbParams :=
  ⟨st.db_type, st.username, st.password, st.database, st.host, st.port,
    st.drop_db⟩

/-- Observable side effects of one orchestrator call, in order of
occurrence. -/
inductive Effect where
  /-- Construction of a fresh `Nlp` object, which carries the schema state
  (`Nlp(self.data_dir, self.schema_dir, self.aws_s3, ...)`). -/
  | constructNlp (data_dir : DataDir) (schema_dir : Option String)
      (aws_s3 : Bool) (access_key_id : String) (secret_access_key : String)
  /-- Construction of a fresh `Database` object
  (`Database(self.data_dir, self.schema_dir, self.aws_s3, ...)`). -/
  | constructDatabase (data_dir : DataDir) (schema_dir : Option String)
      (aws_s3 : Bool) (access_key_id : String) (secret_access_key : String)
  /-- A call into the table selector (`nlp.csv_select(question)`). -/
  | selectCall (question : String)
  /-- A message printed to the user. -/
  | printMsg (s : String)
  /-- A mutation of the process-wide root logger level
  (`root_logger.setLevel(...)`). -/
  | setRootLevel (lvl : LogLevel)
  /-- An INFO-level log record emitted through the module logger. -/
  | logInfo (msg : String)
  /-- A call into the query synthesizer
  (`nlp.get_sql_query(df, question, distinct=distinct)`). -/
  | synthCall (df : Table) (question : String) (distinct : Bool)
  /-- A call into the execution gateway: `fetch_data_aws` when `aws` is true,
  `fetch_data` otherwise, receiving the rendered query (possibly `None`). -/
  | backendCall (aws : Bool) (question : String) (query : Option String)
  /-- A chart-rendering attempt (`Chart(chart, query, answer, size)`). -/
  | chartCall (chart : String) (query : Option String) (answer : Rows)
  deriving DecidableEq, Repr

/-- The external collaborators of the orchestrator, for a fixed agent
configuration, modelled as oracles.  The selector returns `none` exactly when
no relevant table is found; the synthesizer, the gateway and the chart
renderer may fail, and a failure is an exception propagating out of the
collaborator. -/
structure Env where
  csv_select : String → Option Table
  get_sql_query : Table → String → Bool → Except SynthErr String
  fetch_data : Bool → String → Option String → DbParams → Except ExecErr Rows
  chartRender : String → Option String → Rows → Nat × Nat →
    Except ChartErr Unit

/-- The schema-state construction event of one `get_query` call. -/
def nlpEvent (st : Agent) : Effect :=
  Effect.constructNlp st.data_dir st.schema_dir st.aws_s3 st.access_key_id
    st.secret_access_key

/-- The database construction event of one `query_db` call. -/
def dbEvent (st : Agent) : Effect :=
  Effect.constructDatabase st.data_dir st.schema_dir st.aws_s3
    st.access_key_id st.secret_access_key

/-- Resolution of the target DataFrame at the top of `get_query`: an
in-memory `data_dir` is used directly, otherwise the table selector runs.
Returns the resolved table (if any) and the selector-call trace. -/
def resolveDf (st : Agent) (env : Env) (question : String) :
    Option Table × List Effect :=
  match st.data_dir with
  | DataDir.dataFrame df => (some df, [])
  | DataDir.path _ => (env.csv_select question, [Effect.selectCall question])

/-- Embedding of `Agent.get_query(question, verbose, distinct)`.  Returns the
generated query (`Except` captures a synthesizer exception; the payload
`Option String` captures the implicit `None` return of the no-table branch)
together with the effect trace. -/
def get_query (st : Agent) (env : Env) (question : String) (verbose : Bool)
    (distinct : Bool) : Except SynthErr (Option String) × List Effect :=
  match resolveDf st env question with
  | (none, sel) =>
      (Except.ok none,
        nlpEvent st :: sel ++ [Effect.printMsg "Sorry,didn\x27t catch that"])
  | (some df, sel) =>
      match env.get_sql_query df question distinct with
      | Except.error e =>
          (Except.error e,
            nlpEvent st :: sel ++
              [Effect.setRootLevel
                  (if verbose then LogLevel.info else LogLevel.warning),
                Effect.synthCall df question distinct])
      | Except.ok sql =>
          (Except.ok (some sql),
            nlpEvent st :: sel ++
              [Effect.setRootLevel
                  (if verbose then LogLevel.info else LogLevel.warning),
                Effect.synthCall df question distinct] ++
              (if verbose then [Effect.logInfo ("SQL query = " ++ sql)]
                else []))

/-- A failure propagating out of `query_db`: a synthesizer exception escaping
`get_query`, an execution-gateway exception, or a chart-rendering
exception. -/
inductive QueryDbErr where
  | synth (e : SynthErr)
  | exec (e : ExecErr)
  | chart (e : ChartErr)
  deriving DecidableEq, Repr

/-- Embedding of `Agent.query_db(question, verbose, chart, size, distinct)`:
calls `get_query`, constructs a `Database`, dispatches to `fetch_data_aws`
when `aws_db` is set and to `fetch_data` otherwise, then optionally renders a
chart, and returns the gateway answer. -/
def query_db (st : Agent) (env : Env) (question : String) (verbose : Bool)
    (chart : Option String) (size : Nat × Nat) (distinct : Bool) :
    Except QueryDbErr Rows × List Effect :=
  match get_query st env question verbose distinct with
  | (Except.error e, eff1) => (Except.error (QueryDbErr.synth e), eff1)
  | (Except.ok query, eff1) =>
      match env.fetch_data st.aws_db question query st.dbParams with
      | Except.error e =>
          (Except.error (QueryDbErr.exec e),
            eff1 ++ [dbEvent st, Effect.backendCall st.aws_db question query])
      | Except.ok answer =>
          match chart with
          | none =>
              (Except.ok answer,
                eff1 ++
                  [dbEvent st, Effect.backendCall st.aws_db question query])
          | some c =>
              match env.chartRender c query answer size with
              | Except.error e =>
                  (Except.error (QueryDbErr.chart e),
                    eff1 ++
                      [dbEvent st,
                        Effect.backendCall st.aws_db question query,
                        Effect.chartCall c query answer])
              | Except.ok _ =>
                  (Except.ok answer,
                    eff1 ++
                      [dbEvent st,
                        Effect.backendCall st.aws_db question query,
                        Effect.chartCall c query answer])

/-- Messages printed to the user during a call, in order. -/
def printedMsgs (effs : List Effect) : List String :=
  effs.filterMap fun e =>
    match e with
    | Effect.printMsg s => some s
    | _ => none

/-- Number of fresh `Nlp` (schema state) constructions in a trace. -/
def nlpConstructions (effs : List Effect) : Nat :=
  effs.countP fun e =>
    match e with
    | Effect.constructNlp _ _ _ _ _ => true
    | _ => false

/-- Number of fresh `Database` constructions in a trace. -/
def dbConstructions (effs : List Effect) : Nat :=
  effs.countP fun e =>
    match e with
    | Effect.constructDatabase _ _ _ _ _ => true
    | _ => false

/-- Number of table-selector invocations in a trace. -/
def selectCalls (effs : List Effect) : Nat :=
  effs.countP fun e =>
    match e with
    | Effect.selectCall _ => true
    | _ => false

/-- The execution-gateway invocations in a trace: which variant was
dispatched (`true` = AWS) and which rendered query it received. -/
def backendCalls (effs : List Effect) : List (Bool × Option String) :=
  effs.filterMap fun e =>
    match e with
    | Effect.backendCall aws _ q => some (aws, q)
    | _ => none

/-- The `distinct` arguments of the synthesizer invocations in a trace. -/
def synthDistincts (effs : List Effect) : List Bool :=
  effs.filterMap fun e =>
    match e with
    | Effect.synthCall _ _ d => some d
    | _ => none

/-- The root-logger level after replaying a trace from an initial level. -/
def finalRootLevel (init : LogLevel) (effs : List Effect) : LogLevel :=
  effs.foldl
    (fun l e =>
      match e with
      | Effect.setRootLevel l2 => l2
      | _ => l)
    init

/-- A sample agent over a folder of input files, with default settings. -/
def stPath : Agent := { data_dir := DataDir.path "data" }

/-- A sample agent whose `data_dir` is an in-memory DataFrame. -/
def stDf : Agent := { data_dir := DataDir.dataFrame "mem" }

/-- A sample gateway answer. -/
def rows1 : Rows := [["1"]]

/-- Sample collaborators: selection, synthesis, execution and charting all
succeed. -/
def envSel : Env :=
  { csv_select := fun _ => some "t"
    get_sql_query := fun _ _ _ => Except.ok "SELECT * FROM t"
    fetch_data := fun _ _ _ _ => Except.ok rows1
    chartRender := fun _ _ _ _ => Except.ok () }

/-- Sample collaborators where the table selector finds no relevant table. -/
def envNoTable : Env := { envSel with csv_select := fun _ => none }

/-- Sample collaborators where chart rendering raises. -/
def envChartFail : Env :=
  { envSel with chartRender := fun _ _ _ _ => Except.error "chart failure" }

/-- Sample collaborators where the execution gateway raises. -/
def envFetchFail : Env :=
  { envSel with
      fetch_data := fun _ _ _ _ => Except.error "connection refused" }

/-- The value returned by `get_query`, characterized by the collaborator
results alone: it does not depend on `verbose`. -/
lemma get_query_fst (st : Agent) (env : Env) (question : String)
    (verbose distinct : Bool) :
    (get_query st env question verbose distinct).1 =
      match (resolveDf st env question).1 with
      | none => Except.ok none
      | some df => Except.map some (env.get_sql_query df question distinct) := by
  unfold get_query
  cases h : resolveDf st env question with
  | mk odf sel =>
    cases odf with
    | none => simp [h]
    | some df =>
      cases hg : env.get_sql_query df question distinct <;>
        cases verbose <;> simp [h, hg, Except.map]

/-- The effect trace of `get_query`, characterized by the collaborator
results. -/
lemma get_query_snd (st : Agent) (env : Env) (question : String)
    (verbose distinct : Bool) :
    (get_query st env question verbose distinct).2 =
      nlpEvent st :: (resolveDf st env question).2 ++
        match (resolveDf st env question).1 with
        | none => [Effect.printMsg "Sorry,didn\x27t catch that"]
        | some df =>
          [Effect.setRootLevel
              (if verbose then LogLevel.info else LogLevel.warning),
            Effect.synthCall df question distinct] ++
            match env.get_sql_query df question distinct with
            | Except.error _ => []
            | Except.ok sql =>
                if verbose then [Effect.logInfo ("SQL query = " ++ sql)]
                else [] := by
  unfold get_query
  cases h : resolveDf st env question with
  | mk odf sel =>
    cases odf with
    | none => simp [h]
    | some df =>
      cases hg : env.get_sql_query df question distinct <;>
        cases verbose <;> simp [h, hg]

/-- The value returned by `query_db`, characterized by the collaborator
results. -/
lemma query_db_fst (st : Agent) (env : Env) (question : String)
    (verbose : Bool) (chart : Option String) (size : Nat × Nat)
    (distinct : Bool) :
    (query_db st env question verbose chart size distinct).1 =
      match (get_query st env question verbose distinct).1 with
      | Except.error e => Except.error (QueryDbErr.synth e)
      | Except.ok q =>
          match env.fetch_data st.aws_db question q st.dbParams with
          | Except.error e => Except.error (QueryDbErr.exec e)
          | Except.ok answer =>
              match chart with
              | none => Except.ok answer
              | some c =>
                  match env.chartRender c q answer size with
                  | Except.error e => Except.error (QueryDbErr.chart e)
                  | Except.ok _ => Except.ok answer := by
  unfold query_db
  cases hg : get_query st env question verbose distinct with
  | mk r eff1 =>
    cases r with
    | error e => simp [hg]
    | ok q =>
      cases hf : env.fetch_data st.aws_db question q st.dbParams with
      | error e => simp [hg, hf]
      | ok answer =>
        cases chart with
        | none => simp [hg, hf]
        | some c =>
          cases hc : env.chartRender c q answer size <;> simp [hg, hf, hc]

/-- The effect trace of `query_db`: the `get_query` trace followed by the
database construction, the single gateway call, and the chart attempt. -/
lemma query_db_snd (st : Agent) (env : Env) (question : String)
    (verbose : Bool) (chart : Option String) (size : Nat × Nat)
    (distinct : Bool) :
    (query_db st env question verbose chart size distinct).2 =
      (get_query st env question verbose distinct).2 ++
        match (get_query st env question verbose distinct).1 with
        | Except.error _ => []
        | Except.ok q =>
          [dbEvent st, Effect.backendCall st.aws_db question q] ++
            match env.fetch_data st.aws_db question q st.dbParams with
            | Except.error _ => []
            | Except.ok answer =>
                match chart with
                | none => []
                | some c => [Effect.chartCall c q answer] := by
  unfold query_db
  cases hg : get_query st env question verbose distinct with
  | mk r eff1 =>
    cases r with
    | error e => simp [hg]
    | ok q =>
      cases hf : env.fetch_data st.aws_db question q st.dbParams with
      | error e => simp [hg, hf]
      | ok answer =>
        cases chart with
        | none => simp [hg, hf]
        | some c =>
          cases hc : env.chartRender c q answer size <;> simp [hg, hf, hc]

/-- Resolution over a folder data source runs the table selector. -/
lemma resolveDf_path (st : Agent) (env : Env) (question : String) (p : String)
    (hp : st.data_dir = DataDir.path p) :
    resolveDf st env question =
      (env.csv_select question, [Effect.selectCall question]) := by
  unfold resolveDf
  rw [hp]

/-- Resolution over an in-memory DataFrame skips the table selector. -/
lemma resolveDf_df (st : Agent) (env : Env) (question : String) (df : Table)
    (hd : st.data_dir = DataDir.dataFrame df) :
    resolveDf st env question = (some df, []) := by
  unfold resolveDf
  rw [hd]

/-- Printed messages split over trace concatenation. -/
lemma printedMsgs_append (l1 l2 : List Effect) :
    printedMsgs (l1 ++ l2) = printedMsgs l1 ++ printedMsgs l2 := by
  simp [printedMsgs]

/-- Gateway invocations split over trace concatenation. -/
lemma backendCalls_append (l1 l2 : List Effect) :
    backendCalls (l1 ++ l2) = backendCalls l1 ++ backendCalls l2 := by
  simp [backendCalls]

/-- Synthesizer distinct-arguments split over trace concatenation. -/
lemma synthDistincts_append (l1 l2 : List Effect) :
    synthDistincts (l1 ++ l2) = synthDistincts l1 ++ synthDistincts l2 := by
  simp [synthDistincts]

/-- Schema-construction counts add over trace concatenation. -/
lemma nlpConstructions_append (l1 l2 : List Effect) :
    nlpConstructions (l1 ++ l2) = nlpConstructions l1 + nlpConstructions l2 := by
  simp [nlpConstructions]

/-- In the no-table branch, `get_query` prints exactly the not-understood
report. -/
lemma printedMsgs_no_table (st : Agent) (env : Env) (question : String)
    (verbose distinct : Bool) (p : String)
    (hp : st.data_dir = DataDir.path p)
    (hsel : env.csv_select question = none) :
    printedMsgs (get_query st env question verbose distinct).2 =
      ["Sorry,didn\x27t catch that"] := by
  rw [get_query_snd, resolveDf_path st env question p hp]
  simp [hsel, printedMsgs, nlpEvent]

/-- In the no-table branch, `get_query` returns `None` without raising. -/
lemma get_query_fst_no_table (st : Agent) (env : Env) (question : String)
    (verbose distinct : Bool) (p : String)
    (hp : st.data_dir = DataDir.path p)
    (hsel : env.csv_select question = none) :
    (get_query st env question verbose distinct).1 = Except.ok none := by
  rw [get_query_fst, resolveDf_path st env question p hp]
  simp [hsel]

/-- `get_query` never invokes the execution gateway. -/
lemma backendCalls_get_query (st : Agent) (env : Env) (question : String)
    (verbose distinct : Bool) :
    backendCalls (get_query st env question verbose distinct).2 = [] := by
  rw [get_query_snd]
  cases hd : st.data_dir with
  | path p =>
    rw [resolveDf_path st env question p hd]
    cases hs : env.csv_select question with
    | none => simp [backendCalls, nlpEvent]
    | some df =>
      cases hg : env.get_sql_query df question distinct <;> cases verbose <;>
        simp [hg, backendCalls, nlpEvent]
  | dataFrame df =>
    rw [resolveDf_df st env question df hd]
    cases hg : env.get_sql_query df question distinct <;> cases verbose <;>
      simp [hg, backendCalls, nlpEvent]

/-- Whenever query generation returns, `query_db` invokes the gateway exactly
once, dispatching on `aws_db` and forwarding the generated query. -/
lemma backendCalls_query_db (st : Agent) (env : Env) (question : String)
    (verbose : Bool) (chart : Option String) (size : Nat × Nat)
    (distinct : Bool) (q : Option String)
    (hq : (get_query st env question verbose distinct).1 = Except.ok q) :
    backendCalls (query_db st env question verbose chart size distinct).2 =
      [(st.aws_db, q)] := by
  rw [query_db_snd, backendCalls_append,
    backendCalls_get_query st env question verbose distinct, hq]
  cases hf : env.fetch_data st.aws_db question q st.dbParams with
  | error e => simp [hf, backendCalls, dbEvent]
  | ok answer => cases chart <;> simp [hf, backendCalls, dbEvent]

/-- Each `get_query` trace contains exactly one schema-state construction. -/
lemma nlpConstructions_get_query (st : Agent) (env : Env) (question : String)
    (verbose distinct : Bool) :
    nlpConstructions (get_query st env question verbose distinct).2 = 1 := by
  rw [get_query_snd]
  cases hd : st.data_dir with
  | path p =>
    rw [resolveDf_path st env question p hd]
    cases hs : env.csv_select question with
    | none => simp [nlpConstructions, nlpEvent]
    | some df =>
      cases hg : env.get_sql_query df question distinct <;> cases verbose <;>
        simp [hg, nlpConstructions, nlpEvent]
  | dataFrame df =>
    rw [resolveDf_df st env question df hd]
    cases hg : env.get_sql_query df question distinct <;> cases verbose <;>
      simp [hg, nlpConstructions, nlpEvent]

/-- Each `query_db` trace contains exactly one schema-state construction. -/
lemma nlpConstructions_query_db (st : Agent) (env : Env) (question : String)
    (verbose : Bool) (chart : Option String) (size : Nat × Nat)
    (distinct : Bool) :
    nlpConstructions (query_db st env question verbose chart size distinct).2 =
      1 := by
  rw [query_db_snd, nlpConstructions_append,
    nlpConstructions_get_query st env question verbose distinct]
  cases hq : (get_query st env question verbose distinct).1 with
  | error e => simp [nlpConstructions]
  | ok q =>
    cases hf : env.fetch_data st.aws_db question q st.dbParams with
    | error e => simp [hf, nlpConstructions, dbEvent]
    | ok answer => cases chart <;> simp [hf, nlpConstructions, dbEvent]

/-- The synthesizer receives the caller-supplied `distinct` flag, or is not
called at all. -/
lemma synthDistincts_get_query (st : Agent) (env : Env) (question : String)
    (verbose distinct : Bool) :
    synthDistincts (get_query st env question verbose distinct).2 = [] ∨
      synthDistincts (get_query st env question verbose distinct).2 =
        [distinct] := by
  rw [get_query_snd]
  cases hd : st.data_dir with
  | path p =>
    rw [resolveDf_path st env question p hd]
    cases hs : env.csv_select question with
    | none => left; simp [synthDistincts, nlpEvent]
    | some df =>
      right
      cases hg : env.get_sql_query df question distinct <;> cases verbose <;>
        simp [hg, synthDistincts, nlpEvent]
  | dataFrame df =>
    right
    rw [resolveDf_df st env question df hd]
    cases hg : env.get_sql_query df question distinct <;> cases verbose <;>
      simp [hg, synthDistincts, nlpEvent]

/-- `query_db` adds no synthesizer invocations beyond those of
`get_query`. -/
lemma synthDistincts_query_db (st : Agent) (env : Env) (question : String)
    (verbose : Bool) (chart : Option String) (size : Nat × Nat)
    (distinct : Bool) :
    synthDistincts (query_db st env question verbose chart size distinct).2 =
      synthDistincts (get_query st env question verbose distinct).2 := by
  rw [query_db_snd, synthDistincts_append]
  cases hq : (get_query st env question verbose distinct).1 with
  | error e => simp [synthDistincts]
  | ok q =>
    cases hf : env.fetch_data st.aws_db question q st.dbParams with
    | error e => simp [hf, synthDistincts, dbEvent]
    | ok answer => cases chart <;> simp [hf, synthDistincts, dbEvent]

/-- C1: for every question for which the table selector finds no table,
`get_query` prints the not-understood report (the literal
`Sorry,didn\x27t catch that` message), returns `None`, and raises no
exception (the result is `Except.ok none`). -/
theorem get_query_no_table (st : Agent) (env : Env) (question : String)
    (verbose distinct : Bool) (p : String)
    (hp : st.data_dir = DataDir.path p)
    (hsel : env.csv_select question = none) :
    (get_query st env question verbose distinct).1 = Except.ok none ∧
      printedMsgs (get_query st env question verbose distinct).2 =
        ["Sorry,didn\x27t catch that"] :=
  ⟨get_query_fst_no_table st env question verbose distinct p hp hsel,
    printedMsgs_no_table st env question verbose distinct p hp hsel⟩

/-- Witness for C1 at a concrete agent and a selector that finds no table. -/
theorem get_query_no_table_witness :
    stPath.data_dir = DataDir.path "data" ∧
      envNoTable.csv_select "zzz" = none ∧
      ((get_query stPath envNoTable "zzz" false false).1 = Except.ok none ∧
        printedMsgs (get_query stPath envNoTable "zzz" false false).2 =
          ["Sorry,didn\x27t catch that"]) :=
  ⟨rfl, rfl, get_query_no_table stPath envNoTable "zzz" false false "data"
    rfl rfl⟩

/-- C2: the value returned by `get_query` is the same whether `verbose` is
true or false; the flag only affects logging effects, never the result. -/
theorem get_query_verbose_noninterference (st : Agent) (env : Env)
    (question : String) (distinct v1 v2 : Bool) :
    (get_query st env question v1 distinct).1 =
      (get_query st env question v2 distinct).1 := by
  rw [get_query_fst, get_query_fst]

/-- C3: whenever `query_db` returns a value, that value is exactly the row
sequence the execution gateway produced, unchanged; charting never transforms
or replaces it. -/
theorem query_db_returns_backend_rows (st : Agent) (env : Env)
    (question : String) (verbose : Bool) (chart : Option String)
    (size : Nat × Nat) (distinct : Bool) (rows : Rows)
    (h : (query_db st env question verbose chart size distinct).1 =
      Except.ok rows) :
    ∃ q, (get_query st env question verbose distinct).1 = Except.ok q ∧
      env.fetch_data st.aws_db question q st.dbParams = Except.ok rows := by
  rw [query_db_fst] at h
  split at h
  next e hq => exact Except.noConfusion h
  next q hq =>
    refine ⟨q, hq, ?_⟩
    split at h
    next e hf => exact Except.noConfusion h
    next answer hf =>
      split at h
      next =>
        injection h with h2
        rw [hf, h2]
      next c =>
        split at h
        next e hc => exact Except.noConfusion h
        next u hc =>
          injection h with h2
          rw [hf, h2]

/-- Witness for C3 at a concrete run in which all collaborators succeed. -/
theorem query_db_returns_backend_rows_witness :
    (query_db stPath envSel "q" false none (10, 10) false).1 =
      Except.ok rows1 ∧
      ∃ q, (get_query stPath envSel "q" false false).1 = Except.ok q ∧
        envSel.fetch_data stPath.aws_db "q" q stPath.dbParams =
          Except.ok rows1 :=
  ⟨rfl, query_db_returns_backend_rows stPath envSel "q" false none (10, 10)
    false rows1 rfl⟩

/-- C4 counterexample: at a concrete run in which the gateway succeeds with
`rows1` but chart rendering raises, `query_db` does not return the backend
result; the chart failure propagates to the caller.  This refutes the claim
that a chart-rendering failure is never propagated and never aborts an
otherwise successful query. -/
theorem query_db_chart_failure_counterexample :
    (query_db stPath envChartFail "q" false (some "bar") (10, 10) false).1 =
      Except.error (QueryDbErr.chart "chart failure") ∧
      (query_db stPath envChartFail "q" false (some "bar") (10, 10)
          false).1 ≠ Except.ok rows1 :=
  ⟨rfl, fun h => Except.noConfusion h⟩

/-- C4 amended: when a chart argument is supplied and chart rendering raises,
`query_db` propagates that failure to the caller unchanged and does not
return the otherwise successful backend result. -/
theorem query_db_chart_failure_propagates (st : Agent) (env : Env)
    (question : String) (verbose : Bool) (c : String) (size : Nat × Nat)
    (distinct : Bool) (q : Option String) (answer : Rows) (e : ChartErr)
    (hq : (get_query st env question verbose distinct).1 = Except.ok q)
    (hf : env.fetch_data st.aws_db question q st.dbParams = Except.ok answer)
    (hc : env.chartRender c q answer size = Except.error e) :
    (query_db st env question verbose (some c) size distinct).1 =
      Except.error (QueryDbErr.chart e) := by
  simp [query_db_fst, hq, hf, hc]

/-- Witness for the amended C4 at a concrete run with a raising chart
renderer. -/
theorem query_db_chart_failure_propagates_witness :
    (get_query stPath envChartFail "q" false false).1 =
        Except.ok (some "SELECT * FROM t") ∧
      envChartFail.fetch_data stPath.aws_db "q" (some "SELECT * FROM t")
          stPath.dbParams = Except.ok rows1 ∧
      envChartFail.chartRender "bar" (some "SELECT * FROM t") rows1
          (10, 10) = Except.error "chart failure" ∧
      (query_db stPath envChartFail "q" false (some "bar") (10, 10)
          false).1 = Except.error (QueryDbErr.chart "chart failure") :=
  ⟨rfl, rfl, rfl, query_db_chart_failure_propagates stPath envChartFail "q"
    false "bar" (10, 10) false (some "SELECT * FROM t") rows1
    "chart failure" rfl rfl rfl⟩

/-- C5: whenever query generation returns, `query_db` invokes the execution
gateway exactly once, dispatching to the AWS variant exactly when `aws_db` is
set, and a gateway failure is propagated unchanged to the caller (the result
is that failure, and only a gateway failure yields it). -/
theorem query_db_backend_once (st : Agent) (env : Env) (question : String)
    (verbose : Bool) (chart : Option String) (size : Nat × Nat)
    (distinct : Bool) (q : Option String) (e : ExecErr)
    (hq : (get_query st env question verbose distinct).1 = Except.ok q) :
    backendCalls (query_db st env question verbose chart size distinct).2 =
        [(st.aws_db, q)] ∧
      ((query_db st env question verbose chart size distinct).1 =
          Except.error (QueryDbErr.exec e) ↔
        env.fetch_data st.aws_db question q st.dbParams = Except.error e) := by
  refine ⟨backendCalls_query_db st env question verbose chart size distinct
    q hq, ?_⟩
  cases hf : env.fetch_data st.aws_db question q st.dbParams with
  | error e2 => simp [query_db_fst, hq, hf]
  | ok answer =>
    cases chart with
    | none => simp [query_db_fst, hq, hf]
    | some c =>
      cases hc : env.chartRender c q answer size <;>
        simp [query_db_fst, hq, hf, hc]

/-- Witness for C5 at a concrete run in which the gateway raises. -/
theorem query_db_backend_once_witness :
    (get_query stPath envFetchFail "q" false false).1 =
        Except.ok (some "SELECT * FROM t") ∧
      (backendCalls
          (query_db stPath envFetchFail "q" false none (10, 10) false).2 =
          [(stPath.aws_db, some "SELECT * FROM t")] ∧
        ((query_db stPath envFetchFail "q" false none (10, 10) false).1 =
            Except.error (QueryDbErr.exec "connection refused") ↔
          envFetchFail.fetch_data stPath.aws_db "q"
              (some "SELECT * FROM t") stPath.dbParams =
            Except.error "connection refused")) :=
  ⟨rfl, query_db_backend_once stPath envFetchFail "q" false none (10, 10)
    false (some "SELECT * FROM t") "connection refused" rfl⟩

/-- C6: every synthesizer invocation made during `get_query` or `query_db`
receives exactly the caller-supplied `distinct` flag; distinctness is never
inferred from the question text and never altered by the orchestrator. -/
theorem distinct_forwarded_unchanged (st : Agent) (env : Env)
    (question : String) (verbose : Bool) (chart : Option String)
    (size : Nat × Nat) (distinct : Bool) :
    ((synthDistincts (get_query st env question verbose distinct).2).all
        (fun d => d == distinct)) = true ∧
      ((synthDistincts
          (query_db st env question verbose chart size distinct).2).all
        (fun d => d == distinct)) = true := by
  have h1 := synthDistincts_get_query st env question verbose distinct
  have h2 := synthDistincts_query_db st env question verbose chart size
    distinct
  constructor
  · rcases h1 with h | h <;> simp [h]
  · rw [h2]
    rcases h1 with h | h <;> simp [h]

/-- C7 counterexample: a concrete `get_query` call constructs a fresh `Nlp`
schema state, and a concrete `query_db` call additionally constructs a fresh
`Database`.  This refutes the claim that no invocation of `get_query` or
`query_db` constructs a new schema state. -/
theorem get_query_constructs_schema_counterexample :
    nlpConstructions (get_query stPath envSel "list names" false false).2 =
        1 ∧
      dbConstructions
        (query_db stPath envSel "list names" false none (10, 10) false).2 =
        1 :=
  ⟨rfl, rfl⟩

/-- C7 amended: schema state is rebuilt on every call, not loaded once per
session: each invocation of `get_query`, and each invocation of `query_db`,
constructs exactly one fresh `Nlp` schema state. -/
theorem schema_state_rebuilt_per_call (st : Agent) (env : Env)
    (question : String) (verbose : Bool) (chart : Option String)
    (size : Nat × Nat) (distinct : Bool) :
    nlpConstructions (get_query st env question verbose distinct).2 = 1 ∧
      nlpConstructions
        (query_db st env question verbose chart size distinct).2 = 1 :=
  ⟨nlpConstructions_get_query st env question verbose distinct,
    nlpConstructions_query_db st env question verbose chart size distinct⟩

/-- C8: when the table selector finds no table, `query_db` still prints the
not-understood report and then proceeds to invoke the execution gateway
exactly once, passing `None` as the rendered query, instead of stopping. -/
theorem query_db_proceeds_without_table (st : Agent) (env : Env)
    (question : String) (verbose : Bool) (chart : Option String)
    (size : Nat × Nat) (distinct : Bool) (p : String)
    (hp : st.data_dir = DataDir.path p)
    (hsel : env.csv_select question = none) :
    printedMsgs (query_db st env question verbose chart size distinct).2 =
        ["Sorry,didn\x27t catch that"] ∧
      backendCalls (query_db st env question verbose chart size distinct).2 =
        [(st.aws_db, none)] := by
  have hq : (get_query st env question verbose distinct).1 = Except.ok none :=
    get_query_fst_no_table st env question verbose distinct p hp hsel
  constructor
  · rw [query_db_snd, printedMsgs_append,
      printedMsgs_no_table st env question verbose distinct p hp hsel, hq]
    cases hf : env.fetch_data st.aws_db question none st.dbParams with
    | error e => simp [hf, printedMsgs, dbEvent]
    | ok answer => cases chart <;> simp [hf, printedMsgs, dbEvent]
  · exact backendCalls_query_db st env question verbose chart size distinct
      none hq

/-- Witness for C8 at a concrete agent whose selector finds no table. -/
theorem query_db_proceeds_without_table_witness :
    stPath.data_dir = DataDir.path "data" ∧
      envNoTable.csv_select "zzz" = none ∧
      (printedMsgs
          (query_db stPath envNoTable "zzz" false none (10, 10) false).2 =
          ["Sorry,didn\x27t catch that"] ∧
        backendCalls
          (query_db stPath envNoTable "zzz" false none (10, 10) false).2 =
          [(stPath.aws_db, none)]) :=
  ⟨rfl, rfl, query_db_proceeds_without_table stPath envNoTable "zzz" false
    none (10, 10) false "data" rfl rfl⟩

/-- C9: when `data_dir` is an in-memory DataFrame, `get_query` skips table
selection entirely (no selector call), the no-table report is unreachable (no
printed message, and the result is never `ok none`), and the result is the
synthesized query over that table. -/
theorem get_query_dataframe_skips_selection (st : Agent) (env : Env)
    (question : String) (verbose distinct : Bool) (df : Table)
    (hd : st.data_dir = DataDir.dataFrame df) :
    (get_query st env question verbose distinct).1 =
        Except.map some (env.get_sql_query df question distinct) ∧
      (get_query st env question verbose distinct).1 ≠ Except.ok none ∧
      selectCalls (get_query st env question verbose distinct).2 = 0 ∧
      printedMsgs (get_query st env question verbose distinct).2 = [] := by
  refine ⟨?_, ?_, ?_, ?_⟩
  · rw [get_query_fst, resolveDf_df st env question df hd]
  · rw [get_query_fst, resolveDf_df st env question df hd]
    cases hg : env.get_sql_query df question distinct <;>
      simp [hg, Except.map]
  · rw [get_query_snd, resolveDf_df st env question df hd]
    cases hg : env.get_sql_query df question distinct <;> cases verbose <;>
      simp [hg, selectCalls, nlpEvent]
  · rw [get_query_snd, resolveDf_df st env question df hd]
    cases hg : env.get_sql_query df question distinct <;> cases verbose <;>
      simp [hg, printedMsgs, nlpEvent]

/-- Witness for C9 at a concrete agent holding an in-memory DataFrame. -/
theorem get_query_dataframe_skips_selection_witness :
    stDf.data_dir = DataDir.dataFrame "mem" ∧
      ((get_query stDf envSel "q" false false).1 =
          Except.map some (envSel.get_sql_query "mem" "q" false) ∧
        (get_query stDf envSel "q" false false).1 ≠ Except.ok none ∧
        selectCalls (get_query stDf envSel "q" false false).2 = 0 ∧
        printedMsgs (get_query stDf envSel "q" false false).2 = []) :=
  ⟨rfl, get_query_dataframe_skips_selection stDf envSel "q" false false
    "mem" rfl⟩

/-- C10: every `get_query` call that resolves a table mutates the
process-wide root logger as a side effect that persists after the call: the
trace contains a root-level assignment, and replaying the trace from any
initial level leaves the root logger at INFO when `verbose` is true and at
WARNING when it is false. -/
theorem get_query_mutates_root_logger (st : Agent) (env : Env)
    (question : String) (verbose distinct : Bool) (df : Table)
    (init : LogLevel)
    (h : (resolveDf st env question).1 = some df) :
    Effect.setRootLevel (if verbose then LogLevel.info else LogLevel.warning)
        ∈ (get_query st env question verbose distinct).2 ∧
      finalRootLevel init (get_query st env question verbose distinct).2 =
        (if verbose then LogLevel.info else LogLevel.warning) := by
  rw [get_query_snd]
  cases hd : st.data_dir with
  | path p =>
    rw [resolveDf_path st env question p hd] at h ⊢
    simp at h
    cases hg : env.get_sql_query df question distinct <;> cases verbose <;>
      simp [h, hg, finalRootLevel, nlpEvent]
  | dataFrame df2 =>
    rw [resolveDf_df st env question df2 hd] at h ⊢
    cases hg : env.get_sql_query df2 question distinct <;> cases verbose <;>
      simp [hg, finalRootLevel, nlpEvent]

/-- Witness for C10 at a concrete non-verbose call that selects a table,
replayed from an INFO root level. -/
theorem get_query_mutates_root_logger_witness :
    (resolveDf stPath envSel "q").1 = some "t" ∧
      (Effect.setRootLevel
          (if false then LogLevel.info else LogLevel.warning) ∈
          (get_query stPath envSel "q" false false).2 ∧
        finalRootLevel LogLevel.info
            (get_query stPath envSel "q" false false).2 =
          (if false then LogLevel.info else LogLevel.warning)) :=
  ⟨rfl, get_query_mutates_root_logger stPath envSel "q" false false "t"
    LogLevel.info rfl⟩

end TableQA
